import Mathlib

/-! Shallow embedding of the two sensor HAL pipelines of this repository:
the legacy input-event gyroscope driver (`src/8226/l3g4200d_hal.cpp`) and
the buffered IIO sensor (`src/motosh_hal/IioSensor.cpp`).  Device I/O
(ioctl outcomes, buffer refills, attribute writes) enters as explicit
oracle arguments; the machine floats of the source are modelled as exact
rationals, and byte pointers into the scan buffer are modelled in units
of whole sample records. -/

namespace SensorHal

/-- Linux errno code for an invalid argument (`EINVAL`). -/
def EINVAL : Int := 22

/-- Linux input-event type of a synchronization event (`EV_SYN`, from
`linux/input.h`, which is outside this repository). -/
def EV_SYN : Int := 0

/-- Linux input-event type of a relative-axis event (`EV_REL`). -/
def EV_REL : Int := 2

/-- Event code `EVENT_TYPE_GYRO_P` (pitch axis).  The numeric values of
the three axis codes live in a driver header outside `src/`; only their
distinctness from each other matters to the embedded logic. -/
def EVENT_TYPE_GYRO_P : Int := 3

/-- Event code `EVENT_TYPE_GYRO_R` (roll axis). -/
def EVENT_TYPE_GYRO_R : Int := 4

/-- Event code `EVENT_TYPE_GYRO_Y` (yaw axis). -/
def EVENT_TYPE_GYRO_Y : Int := 5

/-- One `struct input_event` as consumed by `GyroSensor::readEvents`:
type, code, value, and the `timevalToNano` of its time field. -/
structure InputEvent where
  type : Int
  code : Int
  value : Int
  time : Int
deriving Repr, DecidableEq

/-- The mutable `mPendingEvent` accumulator of `GyroSensor`: the three
scaled gyro axis values and the timestamp. -/
structure GyroPending where
  x : ℚ
  y : ℚ
  z : ℚ
  timestamp : Int
deriving Repr, DecidableEq

/-- The zero-initialised pending event (`memset` in the constructor). -/
def pending0 : GyroPending := ⟨0, 0, 0, 0⟩

/-- State of a `GyroSensor`: `mEnabled`, `mFlushEnabled` (both `int`
0/1 flags in the source, modelled as `Bool`), the pending event, and
whether `dev_fd` is currently open (`dev_fd != -1`). -/
structure GyroState where
  mEnabled : Bool
  mFlushEnabled : Bool
  pending : GyroPending
  devOpen : Bool
deriving Repr, DecidableEq

/-- `GyroSensor::processEvent`: stores one scaled axis reading into the
pending event.  `cP`, `cR`, `cY` are the `CONVERT_G_P/R/Y` constants
(compile-time floats in a header outside `src/`), kept symbolic. -/
def processEvent (cP cR cY : ℚ) (code value : Int) (p : GyroPending) : GyroPending :=
  if code = EVENT_TYPE_GYRO_P then { p with y := value * cP }
  else if code = EVENT_TYPE_GYRO_R then { p with x := value * cR }
  else if code = EVENT_TYPE_GYRO_Y then { p with z := value * cY }
  else p

/-- One output slot of `GyroSensor::readEvents`: either the static
`mFlushEvent` meta-data marker or a copy of the pending sample. -/
inductive OutEvent where
  | flushMarker : OutEvent
  | sample : GyroPending → OutEvent
deriving Repr, DecidableEq

/-- Recognise the flush marker among output events. -/
def OutEvent.isMarker : OutEvent → Bool
  | OutEvent.flushMarker => true
  | OutEvent.sample _ => false

/-- The `while (count && mInputReader.readEvent(&event))` loop of
`GyroSensor::readEvents`, returning the final pending event, the list of
samples copied out, and the input events left unconsumed in the reader.
`n` is the remaining capacity `count`; `enabled` is `mEnabled`, which the
loop reads but never writes. -/
def gyroLoop (cP cR cY : ℚ) (enabled : Bool) (evs : List InputEvent) (n : Nat)
    (p : GyroPending) : GyroPending × List GyroPending × List InputEvent :=
  match evs with
  | [] => (p, [], [])
  | ev :: rest =>
    if n = 0 then (p, [], ev :: rest)
    else if ev.type = EV_REL then
      gyroLoop cP cR cY enabled rest n (processEvent cP cR cY ev.code ev.value p)
    else if ev.type = EV_SYN then
      let p2 := { p with timestamp := ev.time }
      if enabled then
        let r := gyroLoop cP cR cY enabled rest (n - 1) p2
        (r.1, p2 :: r.2.1, r.2.2)
      else
        gyroLoop cP cR cY enabled rest n p2
    else
      gyroLoop cP cR cY enabled rest n p

/-- `GyroSensor::readEvents(data, count)`.  `fillResult` is the byte
count (or negative errno) returned by `mInputReader.fill(data_fd)` and
`events` the input events that the fill made available.  Returns the new
sensor state, the ordered contents written to `data`, and the `int`
return value. -/
def GyroSensor_readEvents (cP cR cY : ℚ) (st : GyroState) (fillResult : Int)
    (events : List InputEvent) (count : Int) : GyroState × List OutEvent × Int :=
  if count < 1 then (st, [], -EINVAL)
  else if st.mFlushEnabled then
    if fillResult < 0 then
      ({ st with mFlushEnabled := false }, [OutEvent.flushMarker], fillResult)
    else
      let r := gyroLoop cP cR cY st.mEnabled events (count - 1).toNat st.pending
      ({ st with mFlushEnabled := false, pending := r.1 },
        OutEvent.flushMarker :: r.2.1.map OutEvent.sample,
        1 + (r.2.1.length : Int))
  else
    if fillResult < 0 then (st, [], fillResult)
    else
      let r := gyroLoop cP cR cY st.mEnabled events count.toNat st.pending
      ({ st with pending := r.1 }, r.2.1.map OutEvent.sample, (r.2.1.length : Int))

/-- `GyroSensor::flush(handle)`: unconditionally sets `mFlushEnabled`
and returns 0. -/
def GyroSensor_flush (st : GyroState) : GyroState × Int :=
  ({ st with mFlushEnabled := true }, 0)

/-- `GyroSensor::setEnable(_, en)`.  `ioctlFails` tells whether the
`L3G4200D_IOCTL_SET_ENABLE` ioctl returns a negative value, `errnoV` the
`errno` it leaves behind.  Returns the new state, the `int` return
value, and whether the ioctl was attempted at all. -/
def GyroSensor_setEnable (st : GyroState) (en : Int) (ioctlFails : Bool)
    (errnoV : Int) : GyroState × Int × Bool :=
  let flags : Bool := if en = 0 then false else true
  if flags = st.mEnabled then (st, 0, false)
  else
    let st1 := if flags then { st with devOpen := true } else st
    let err : Int := if ioctlFails then -errnoV else 0
    let st2 := if err = 0 then { st1 with mEnabled := flags } else st1
    let st3 := if flags then st2 else { st2 with devOpen := false }
    (st3, err, true)

/-- `GyroSensor::getEnable`. -/
def GyroSensor_getEnable (st : GyroState) : Bool :=
  st.mEnabled

/-- `GyroSensor::setDelay(handle, ns)`.  `ioctlFails` tells whether the
`L3G4200D_IOCTL_SET_DELAY` ioctl returns nonzero, `errnoV` the `errno`
it leaves behind. -/
def GyroSensor_setDelay (st : GyroState) (ns : Int) (ioctlFails : Bool)
    (errnoV : Int) : GyroState × Int :=
  if ns < 0 then (st, -EINVAL)
  else
    let st1 := if !st.mEnabled && !st.devOpen then { st with devOpen := true } else st
    if ioctlFails then (st1, -errnoV)
    else if st1.mEnabled then (st1, 0)
    else ({ st1 with devOpen := false }, 0)

/-- State of an `IioSensor` relevant to buffered reading: the
`remaining_samples` counter (an `int` that stays non-negative) and
whether `iio_buf` is non-null. -/
structure IioState where
  remaining_samples : Nat
  hasBuf : Bool
deriving Repr, DecidableEq

/-- The member-initialiser state of the `IioSensor` constructor:
`remaining_samples(0)`, `iio_buf(nullptr)`. -/
def IioSensor_init : IioState := ⟨0, false⟩

/-- `IioSensor::readEvents(data, count)`.  `refillBytes` is what
`iio_buffer_refill` would return if called (bytes, or a negative errno);
`sample_size` is `iio_device_get_sample_size`.  Cursor positions are
modelled in record units: the source's byte cursor
`start - iio_buffer_start(iio_buf)` divided by `sample_size`.  Returns
the new state, the list of record indices (relative to the current
buffer) whose bytes are decoded into `data`, and the `int` return
value. -/
def IioSensor_readEvents (st : IioState) (refillBytes : Int) (sample_size : Nat)
    (count : Int) : IioState × List Nat × Int :=
  if st.remaining_samples = 0 then
    if refillBytes < 0 then (st, [], refillBytes)
    else
      let rem := refillBytes.toNat / sample_size
      let copied := min rem count.toNat
      ({ st with remaining_samples := rem - copied }, List.range copied, (copied : Int))
  else
    let startIdx := st.remaining_samples
    let copied := min st.remaining_samples count.toNat
    ({ st with remaining_samples := st.remaining_samples - copied },
      (List.range copied).map (fun i => startIdx + i), (copied : Int))

/-- `IioSensor::setEnable(handle, enabled)`.  Channel enables/disables
carry no state here; `handleOk` is `hasSensor(handle)`, `bufCreateFails`
tells whether `iio_device_create_buffer` returns null, `errnoV` the
`errno` it leaves behind. -/
def IioSensor_setEnable (st : IioState) (handleOk : Bool) (enabled : Bool)
    (bufCreateFails : Bool) (errnoV : Int) : IioState × Int :=
  if !handleOk then (st, -EINVAL)
  else if enabled then
    if !st.hasBuf then
      if bufCreateFails then (st, -errnoV)
      else ({ st with hasBuf := true }, 0)
    else (st, 0)
  else if st.hasBuf then ({ st with hasBuf := false }, 0)
  else (st, 0)

/-- Android `SENSOR_FLAG_MASK_REPORTING_MODE` (`REPORTING_MODE_MASK` in
the source), from the platform `sensors.h` outside this repository. -/
def REPORTING_MODE_MASK : Nat := 14

/-- Android `SENSOR_FLAG_ONE_SHOT_MODE`, from the platform `sensors.h`
outside this repository. -/
def SENSOR_FLAG_ONE_SHOT_MODE : Nat := 4

/-- `IioSensor::flush(handle)`.  `sensorHandle` is `sensor.handle`,
`flags` is `sensor.flags`, `attrWriteResult` is what
`iio_device_attr_write_longlong(iio_dev, "flush", 1)` would return.
Returns the `int` return value and whether that attribute write was
performed. -/
def IioSensor_flush (sensorHandle : Int) (flags : Nat) (handle : Int)
    (attrWriteResult : Int) : Int × Bool :=
  if handle = sensorHandle then
    if flags &&& REPORTING_MODE_MASK = SENSOR_FLAG_ONE_SHOT_MODE then (-EINVAL, false)
    else (attrWriteResult, true)
  else (-EINVAL, false)

/-- `IioSensor::batch(handle, flags, sampling_period_ns, max_latency)`.
The `period < chrono::microseconds(1)` test on the double-valued period
is exact for every `int64` period of interest, so it is modelled as
`sampling_period_ns < 1000`.  The derived frequency
`chrono::duration<double>(1.0) / period` is modelled as the exact
rational `10^9 / sampling_period_ns` Hz (the source computes it in IEEE
double).  Returns the `int` return value, the frequency written to
`in_sampling_frequency` (if any), and whether the best-effort
`max_latency_ns` write was performed. -/
def IioSensor_batch (sensorHandle : Int) (handle : Int) (sampling_period_ns : Int)
    (latencyWriteResult freqWriteResult : Int) : Int × Option ℚ × Bool :=
  if handle ≠ sensorHandle ∨ sampling_period_ns < 1000 then (-EINVAL, none, false)
  else (freqWriteResult, some (1000000000 / (sampling_period_ns : ℚ)), true)

/-- The number of samples the read loop of `GyroSensor::readEvents`
copies out never exceeds the remaining capacity it was given. -/
theorem gyroLoop_length_le (cP cR cY : ℚ) (enabled : Bool) (evs : List InputEvent) :
    ∀ (n : Nat) (p : GyroPending),
      (gyroLoop cP cR cY enabled evs n p).2.1.length ≤ n := by
  induction evs with
  | nil => intro n p; simp [gyroLoop]
  | cons ev rest ih =>
    intro n p
    by_cases h0 : n = 0
    · simp [gyroLoop, h0]
    · by_cases h1 : ev.type = EV_REL
      · simpa [gyroLoop, h0, h1] using ih n _
      · by_cases h2 : ev.type = EV_SYN
        · by_cases h3 : enabled
          · have h4 := ih (n - 1) { p with timestamp := ev.time }
            rw [h3] at h4
            simp [gyroLoop, h0, h1, h2, h3, EV_SYN, EV_REL]
            omega
          · simpa [gyroLoop, h0, h1, h2, h3] using ih n _
        · simpa [gyroLoop, h0, h1, h2] using ih n _

/-- Mapped sample events contain no flush marker. -/
theorem countP_isMarker_map_sample (l : List GyroPending) :
    (l.map OutEvent.sample).countP OutEvent.isMarker = 0 := by
  induction l with
  | nil => rfl
  | cons a t ih => simp [List.countP_cons, OutEvent.isMarker, ih]

/-- C1: refuted on the source; this evaluates `IioSensor::readEvents` at the
failing input.  After a refill of 24 bytes with `sample_size` 8 (record
indices 0, 1, 2), a call with `count = 1` delivers record 0 and leaves
`remaining_samples = 2`; the next call resumes the cursor at
`start + remaining_samples * sample_size` (record index 2), delivering
records 2 and 3 — index 3 lies past the refilled data and record 1 is
never delivered.  With counts 2 then 2, record 1 is delivered twice and
record 2 never.  The claim (continuation from the number of records
already copied out, each fetched record delivered exactly once) fails. -/
theorem C1_cursor_resume_bug :
    (IioSensor_readEvents ⟨0, true⟩ 24 8 1 = (⟨2, true⟩, [0], 1) ∧
      IioSensor_readEvents ⟨2, true⟩ 0 8 4 = (⟨0, true⟩, [2, 3], 2)) ∧
    (IioSensor_readEvents ⟨0, true⟩ 24 8 2 = (⟨1, true⟩, [0, 1], 2) ∧
      IioSensor_readEvents ⟨1, true⟩ 0 8 2 = (⟨0, true⟩, [1], 1)) := by
  decide

/-- C7: refuted on the source; this evaluates the enable / partial-read /
disable / re-enable sequence.  `remaining_samples` is set to 0 only in
the constructor; `IioSensor::setEnable` neither resets it when it
destroys the buffer nor when it creates a fresh one, so after the
re-enable the counter still reads 2 and the next `readEvents` skips the
refill (the refill oracle is `-5` here and is never consulted),
delivering stale record offsets from the brand-new buffer. -/
theorem C7_stale_carryover_bug :
    (IioSensor_setEnable IioSensor_init true true false 0).1 = ⟨0, true⟩ ∧
    IioSensor_readEvents ⟨0, true⟩ 12 4 1 = (⟨2, true⟩, [0], 1) ∧
    (IioSensor_setEnable ⟨2, true⟩ true false false 0).1 = ⟨2, false⟩ ∧
    (IioSensor_setEnable ⟨2, false⟩ true true false 0).1 = ⟨2, true⟩ ∧
    IioSensor_readEvents ⟨2, true⟩ (-5) 4 4 = (⟨0, true⟩, [2, 3], 2) := by
  decide

/-- C2, counterexample: with a flush pending (so the marker is written to
`data[0]` and `mFlushEnabled` is cleared) and a fill that fails with
`-5`, `GyroSensor::readEvents` returns `-5`, not the claimed count of
1. -/
theorem C2_counterexample :
    (GyroSensor_readEvents 1 1 1 ⟨true, true, pending0, true⟩ (-5) [] 64).2.2 = -5 ∧
      ((-5 : Int) ≠ 1) := by
  decide

/-- C2, amended: when a flush marker is pending and the subsequent fill
fails with a negative byte count, `GyroSensor::readEvents` returns that
negative error code; the marker was still copied into the output slot
and the pending-flush flag was cleared, so its count is lost to the
caller. -/
theorem C2_error_after_marker (cP cR cY : ℚ) (st : GyroState) (fillResult : Int)
    (events : List InputEvent) (count : Int) (hm : st.mFlushEnabled = true)
    (hc : 1 ≤ count) (hf : fillResult < 0) :
    GyroSensor_readEvents cP cR cY st fillResult events count =
      ({ st with mFlushEnabled := false }, [OutEvent.flushMarker], fillResult) := by
  have hcc : ¬(count < 1) := by omega
  simp [GyroSensor_readEvents, hm, hf, hcc]

/-- Witness for C2's amended theorem at a concrete input. -/
theorem C2_error_after_marker_witness :
    GyroSensor_readEvents 1 1 1 ⟨true, true, pending0, true⟩ (-5) [] 64 =
      (⟨true, false, pending0, true⟩, [OutEvent.flushMarker], -5) :=
  C2_error_after_marker 1 1 1 ⟨true, true, pending0, true⟩ (-5) [] 64 rfl
    (by decide) (by decide)

/-- C3, counterexample: `IioSensor::readEvents` performs no `maxCount`
validation; called with `count = 0` (and a successful refill) it returns
0, not `-EINVAL`. -/
theorem C3_counterexample :
    (IioSensor_readEvents ⟨0, true⟩ 8 8 0).2.2 = 0 ∧ (0 : Int) ≠ -EINVAL := by
  decide

/-- The return value of `IioSensor::readEvents` is either the negative
refill error, or the number of records copied, which is a `min` with the
capacity. -/
theorem iioRet_cases (st : IioState) (refill : Int) (sample_size : Nat) (count : Int) :
    ((IioSensor_readEvents st refill sample_size count).2.2 = refill ∧ refill < 0) ∨
    ∃ m : Nat, (IioSensor_readEvents st refill sample_size count).2.2 =
      ((min m count.toNat : Nat) : Int) := by
  by_cases h0 : st.remaining_samples = 0
  · by_cases hf : refill < 0
    · left
      refine ⟨?_, hf⟩
      simp [IioSensor_readEvents, h0, hf]
    · right
      refine ⟨refill.toNat / sample_size, ?_⟩
      simp [IioSensor_readEvents, h0, hf]
  · right
    refine ⟨st.remaining_samples, ?_⟩
    simp [IioSensor_readEvents, h0]

/-- C3, amended: `GyroSensor::readEvents` rejects `maxCount < 1` with
`-EINVAL`; `IioSensor::readEvents` performs no capacity validation (for
`maxCount < 1` and a successful refill it returns 0); for every
`maxCount = C ≥ 1` both return either a negative error code or a count
in `[0, C]`. -/
theorem C3_readEvents_bounds :
    (∀ (cP cR cY : ℚ) (st : GyroState) (fill : Int) (evs : List InputEvent) (count : Int),
        count < 1 → (GyroSensor_readEvents cP cR cY st fill evs count).2.2 = -EINVAL) ∧
    (∀ (cP cR cY : ℚ) (st : GyroState) (fill : Int) (evs : List InputEvent) (count : Int),
        1 ≤ count →
        (GyroSensor_readEvents cP cR cY st fill evs count).2.2 < 0 ∨
          (0 ≤ (GyroSensor_readEvents cP cR cY st fill evs count).2.2 ∧
            (GyroSensor_readEvents cP cR cY st fill evs count).2.2 ≤ count)) ∧
    (∀ (st : IioState) (refill : Int) (sample_size : Nat) (count : Int),
        1 ≤ count →
        (IioSensor_readEvents st refill sample_size count).2.2 < 0 ∨
          (0 ≤ (IioSensor_readEvents st refill sample_size count).2.2 ∧
            (IioSensor_readEvents st refill sample_size count).2.2 ≤ count)) ∧
    (∀ (st : IioState) (refill : Int) (sample_size : Nat) (count : Int),
        count < 1 → 0 ≤ refill →
        (IioSensor_readEvents st refill sample_size count).2.2 = 0) := by
  refine ⟨?_, ?_, ?_, ?_⟩
  · intro cP cR cY st fill evs count hc
    simp [GyroSensor_readEvents, hc]
  · intro cP cR cY st fill evs count hc
    have hcc : ¬(count < 1) := by omega
    by_cases hfl : st.mFlushEnabled
    · by_cases hf : fill < 0
      · left; simp [GyroSensor_readEvents, hcc, hfl, hf]
      · right
        have hl := gyroLoop_length_le cP cR cY st.mEnabled evs (count.toNat - 1) st.pending
        have hl2 := gyroLoop_length_le cP cR cY st.mEnabled evs (count - 1).toNat st.pending
        simp [GyroSensor_readEvents, hcc, hfl, hf]
        omega
    · by_cases hf : fill < 0
      · left; simp [GyroSensor_readEvents, hcc, hfl, hf]
      · right
        have hl := gyroLoop_length_le cP cR cY st.mEnabled evs count.toNat st.pending
        simp [GyroSensor_readEvents, hcc, hfl, hf]
        omega
  · intro st refill sample_size count hc
    rcases iioRet_cases st refill sample_size count with ⟨he, hneg⟩ | ⟨m, he⟩
    · left; omega
    · right; rw [he]; constructor
      · positivity
      · have : min m count.toNat ≤ count.toNat := Nat.min_le_right m count.toNat
        omega
  · intro st refill sample_size count hc hr
    rcases iioRet_cases st refill sample_size count with ⟨he, hneg⟩ | ⟨m, he⟩
    · omega
    · rw [he]
      have : count.toNat = 0 := by omega
      simp [this]

/-- Witness for C3's amended theorem at concrete inputs. -/
theorem C3_readEvents_bounds_witness :
    (GyroSensor_readEvents 1 1 1 ⟨false, false, pending0, false⟩ 0 [] 0).2.2 = -EINVAL ∧
    ((GyroSensor_readEvents 1 1 1 ⟨false, false, pending0, false⟩ 0 [] 3).2.2 < 0 ∨
      (0 ≤ (GyroSensor_readEvents 1 1 1 ⟨false, false, pending0, false⟩ 0 [] 3).2.2 ∧
        (GyroSensor_readEvents 1 1 1 ⟨false, false, pending0, false⟩ 0 [] 3).2.2 ≤ 3)) ∧
    ((IioSensor_readEvents ⟨0, true⟩ 16 8 2).2.2 < 0 ∨
      (0 ≤ (IioSensor_readEvents ⟨0, true⟩ 16 8 2).2.2 ∧
        (IioSensor_readEvents ⟨0, true⟩ 16 8 2).2.2 ≤ 2)) ∧
    (IioSensor_readEvents ⟨0, true⟩ 8 8 0).2.2 = 0 :=
  ⟨C3_readEvents_bounds.1 1 1 1 ⟨false, false, pending0, false⟩ 0 [] 0 (by decide),
    C3_readEvents_bounds.2.1 1 1 1 ⟨false, false, pending0, false⟩ 0 [] 3 (by decide),
    C3_readEvents_bounds.2.2.1 ⟨0, true⟩ 16 8 2 (by decide),
    C3_readEvents_bounds.2.2.2 ⟨0, true⟩ 8 8 0 (by decide) (by decide)⟩

/-- C4: two `GyroSensor::flush` calls leave the same pending-flush state
as one; the next `readEvents` with capacity at least 1 emits exactly one
flush marker, as the first element of the batch, and clears the flag, so
a second `readEvents` with no intervening flush emits no marker. -/
theorem C4_flush_idempotent_ordered (cP cR cY : ℚ) (st : GyroState)
    (fill fill2 : Int) (evs evs2 : List InputEvent) (count count2 : Int)
    (hc : 1 ≤ count) (hc2 : 1 ≤ count2) :
    (GyroSensor_flush (GyroSensor_flush st).1).1 = (GyroSensor_flush st).1 ∧
    (GyroSensor_readEvents cP cR cY (GyroSensor_flush (GyroSensor_flush st).1).1
        fill evs count).2.1.head? = some OutEvent.flushMarker ∧
    ((GyroSensor_readEvents cP cR cY (GyroSensor_flush (GyroSensor_flush st).1).1
        fill evs count).2.1.countP OutEvent.isMarker) = 1 ∧
    (GyroSensor_readEvents cP cR cY (GyroSensor_flush (GyroSensor_flush st).1).1
        fill evs count).1.mFlushEnabled = false ∧
    ((GyroSensor_readEvents cP cR cY
        (GyroSensor_readEvents cP cR cY (GyroSensor_flush (GyroSensor_flush st).1).1
          fill evs count).1 fill2 evs2 count2).2.1.countP OutEvent.isMarker) = 0 := by
  have hcc : ¬(count < 1) := by omega
  have hcc2 : ¬(count2 < 1) := by omega
  by_cases hf : fill < 0
  · by_cases hf2 : fill2 < 0 <;>
      simp [GyroSensor_readEvents, GyroSensor_flush, hcc, hcc2, hf, hf2,
        List.countP_cons, OutEvent.isMarker, countP_isMarker_map_sample]
  · by_cases hf2 : fill2 < 0 <;>
      simp [GyroSensor_readEvents, GyroSensor_flush, hcc, hcc2, hf, hf2,
        List.countP_cons, OutEvent.isMarker, countP_isMarker_map_sample]

/-- Witness for C4 at a concrete input. -/
theorem C4_flush_idempotent_ordered_witness :
    (GyroSensor_flush (GyroSensor_flush ⟨true, false, pending0, true⟩).1).1 =
      (GyroSensor_flush ⟨true, false, pending0, true⟩).1 ∧
    (GyroSensor_readEvents 1 1 1
        (GyroSensor_flush (GyroSensor_flush ⟨true, false, pending0, true⟩).1).1
        0 [] 2).2.1.head? = some OutEvent.flushMarker ∧
    ((GyroSensor_readEvents 1 1 1
        (GyroSensor_flush (GyroSensor_flush ⟨true, false, pending0, true⟩).1).1
        0 [] 2).2.1.countP OutEvent.isMarker) = 1 ∧
    (GyroSensor_readEvents 1 1 1
        (GyroSensor_flush (GyroSensor_flush ⟨true, false, pending0, true⟩).1).1
        0 [] 2).1.mFlushEnabled = false ∧
    ((GyroSensor_readEvents 1 1 1
        (GyroSensor_readEvents 1 1 1
          (GyroSensor_flush (GyroSensor_flush ⟨true, false, pending0, true⟩).1).1
          0 [] 2).1 0 [] 2).2.1.countP OutEvent.isMarker) = 0 :=
  C4_flush_idempotent_ordered 1 1 1 ⟨true, false, pending0, true⟩ 0 0 [] [] 2 2
    (by decide) (by decide)

/-- C5: on a sensor whose reporting-mode bits equal one-shot mode,
`IioSensor::flush` with the sensor's own handle returns `-EINVAL` and
never performs the flush-attribute write. -/
theorem C5_oneshot_flush_einval (sensorHandle : Int) (flags : Nat) (w : Int)
    (h : flags &&& REPORTING_MODE_MASK = SENSOR_FLAG_ONE_SHOT_MODE) :
    IioSensor_flush sensorHandle flags sensorHandle w = (-EINVAL, false) := by
  simp [IioSensor_flush, h]

/-- Witness for C5 at a concrete input. -/
theorem C5_oneshot_flush_einval_witness :
    IioSensor_flush 7 4 7 0 = (-EINVAL, false) :=
  C5_oneshot_flush_einval 7 4 0 (by decide)

/-- C6: `IioSensor::batch` rejects every sampling period under one
microsecond with `-EINVAL` (performing no attribute write); for valid
periods it performs the best-effort max-latency write, writes the
sampling frequency `1 / period` in Hz, and returns exactly the status of
that final frequency write, whatever the latency write returned. -/
theorem C6_batch_behavior (sensorHandle sampling_period_ns lw fw : Int) :
    (sampling_period_ns < 1000 →
      IioSensor_batch sensorHandle sensorHandle sampling_period_ns lw fw =
        (-EINVAL, none, false)) ∧
    (1000 ≤ sampling_period_ns →
      IioSensor_batch sensorHandle sensorHandle sampling_period_ns lw fw =
        (fw, some (1000000000 / (sampling_period_ns : ℚ)), true)) := by
  constructor
  · intro h
    simp [IioSensor_batch, h]
  · intro h
    have hh : ¬(sampling_period_ns < 1000) := by omega
    simp [IioSensor_batch, hh]

/-- Witness for C6: a 500000 ns period (0.5 ms, i.e. 2 kHz) writes the
frequency 2000 Hz and returns the frequency-write status even though the
latency write failed; a 999 ns period is rejected. -/
theorem C6_batch_behavior_witness :
    IioSensor_batch 1 1 500000 (-5) 0 = (0, some 2000, true) ∧
    IioSensor_batch 1 1 999 (-5) 0 = (-EINVAL, none, false) := by
  constructor
  · rw [(C6_batch_behavior 1 500000 (-5) 0).2 (by norm_num)]
    norm_num
  · exact (C6_batch_behavior 1 999 (-5) 0).1 (by norm_num)

/-- C8, counterexample: with the sensor disabled and the device closed, a
valid `setDelay(0)` whose ioctl fails returns the error with the
transiently opened handle still open, contradicting the claimed close on
every return path. -/
theorem C8_counterexample :
    GyroSensor_setDelay ⟨false, false, pending0, false⟩ 0 true 5 =
      (⟨false, false, pending0, true⟩, -5) ∧
    (GyroSensor_setDelay ⟨false, false, pending0, false⟩ 0 true 5).1.devOpen = true := by
  decide

/-- C8, amended: `GyroSensor::setDelay` rejects negative nanosecond
values with `-EINVAL`; while disabled, on the success path the device
handle is closed before returning; but when the delay ioctl fails the
function returns the error immediately and a transiently opened handle
is left open. -/
theorem C8_setDelay_behavior (st : GyroState) (ns errnoV : Int) :
    (∀ ioctlFails, ns < 0 →
      GyroSensor_setDelay st ns ioctlFails errnoV = (st, -EINVAL)) ∧
    (0 ≤ ns → st.mEnabled = false →
      GyroSensor_setDelay st ns false errnoV = ({ st with devOpen := false }, 0)) ∧
    (0 ≤ ns → st.mEnabled = false → st.devOpen = false →
      GyroSensor_setDelay st ns true errnoV = ({ st with devOpen := true }, -errnoV)) := by
  obtain ⟨me, mf, pe, dv⟩ := st
  refine ⟨?_, ?_, ?_⟩
  · intro ioctlFails h
    simp [GyroSensor_setDelay, h]
  · intro h he
    have hh : ¬(ns < 0) := by omega
    subst he
    by_cases hd : dv <;> simp [GyroSensor_setDelay, hh, hd]
  · intro h he hd
    have hh : ¬(ns < 0) := by omega
    subst he
    subst hd
    simp [GyroSensor_setDelay, hh]

/-- Witness for C8's amended theorem at concrete inputs. -/
theorem C8_setDelay_behavior_witness :
    GyroSensor_setDelay ⟨false, false, pending0, true⟩ (-1) false 5 =
      (⟨false, false, pending0, true⟩, -EINVAL) ∧
    GyroSensor_setDelay ⟨false, false, pending0, false⟩ 1000000 false 5 =
      (⟨false, false, pending0, false⟩, 0) ∧
    GyroSensor_setDelay ⟨false, false, pending0, false⟩ 1000000 true 5 =
      (⟨false, false, pending0, true⟩, -5) :=
  ⟨(C8_setDelay_behavior ⟨false, false, pending0, true⟩ (-1) 5).1 false (by decide),
    (C8_setDelay_behavior ⟨false, false, pending0, false⟩ 1000000 5).2.1 (by decide) rfl,
    (C8_setDelay_behavior ⟨false, false, pending0, false⟩ 1000000 5).2.2 (by decide) rfl rfl⟩

/-- C9: in the read loop of `GyroSensor::readEvents`, a sync event
commits the pending sample's timestamp from the event's own time field
and the committed sample is prepended to the output exactly when the
sensor is enabled; an event whose type is neither `EV_REL` nor `EV_SYN`
is discarded without aborting the batch or changing the pending
sample. -/
theorem C9_sync_and_unknown (cP cR cY : ℚ) (enabled : Bool) (ev : InputEvent)
    (rest : List InputEvent) (n : Nat) (p : GyroPending) :
    (ev.type = EV_SYN → n ≠ 0 → enabled = true →
      gyroLoop cP cR cY enabled (ev :: rest) n p =
        ((gyroLoop cP cR cY enabled rest (n - 1) { p with timestamp := ev.time }).1,
          { p with timestamp := ev.time } ::
            (gyroLoop cP cR cY enabled rest (n - 1) { p with timestamp := ev.time }).2.1,
          (gyroLoop cP cR cY enabled rest (n - 1) { p with timestamp := ev.time }).2.2)) ∧
    (ev.type = EV_SYN → n ≠ 0 → enabled = false →
      gyroLoop cP cR cY enabled (ev :: rest) n p =
        gyroLoop cP cR cY enabled rest n { p with timestamp := ev.time }) ∧
    (ev.type ≠ EV_REL → ev.type ≠ EV_SYN → n ≠ 0 →
      gyroLoop cP cR cY enabled (ev :: rest) n p =
        gyroLoop cP cR cY enabled rest n p) := by
  refine ⟨?_, ?_, ?_⟩
  · intro h2 h0 h3
    have h1 : ¬(ev.type = EV_REL) := by rw [h2]; decide
    simp [gyroLoop, h0, h1, h2, h3, EV_SYN, EV_REL]
  · intro h2 h0 h3
    have h1 : ¬(ev.type = EV_REL) := by rw [h2]; decide
    simp [gyroLoop, h0, h1, h2, h3, EV_SYN, EV_REL]
  · intro h1 h2 h0
    simp [gyroLoop, h0, h1, h2]

/-- Witness for C9 at concrete inputs: a sync event at time 42 emits the
committed sample when enabled, commits without emitting when disabled,
and an unknown event type is skipped. -/
theorem C9_sync_and_unknown_witness :
    gyroLoop 1 1 1 true [⟨EV_SYN, 0, 0, 42⟩] 2 pending0 =
      (⟨0, 0, 0, 42⟩, [⟨0, 0, 0, 42⟩], []) ∧
    gyroLoop 1 1 1 false [⟨EV_SYN, 0, 0, 42⟩] 2 pending0 = (⟨0, 0, 0, 42⟩, [], []) ∧
    gyroLoop 1 1 1 true [⟨7, 7, 7, 7⟩] 2 pending0 = (pending0, [], []) := by
  refine ⟨?_, ?_, ?_⟩
  · rw [(C9_sync_and_unknown 1 1 1 true ⟨EV_SYN, 0, 0, 42⟩ [] 2 pending0).1 rfl
      (by decide) rfl]
    decide
  · rw [(C9_sync_and_unknown 1 1 1 false ⟨EV_SYN, 0, 0, 42⟩ [] 2 pending0).2.1 rfl
      (by decide) rfl]
    decide
  · rw [(C9_sync_and_unknown 1 1 1 true ⟨7, 7, 7, 7⟩ [] 2 pending0).2.2 (by decide)
      (by decide) (by decide)]
    decide

/-- C10: `GyroSensor::setEnable` with a requested state equal to the
current state performs no device operation and returns 0; when the
enable/disable ioctl fails (with a nonzero errno), the stored enabled
state reported by `getEnable` is unchanged and the errno is returned. -/
theorem C10_setEnable_noop_and_failure (st : GyroState) (en : Int)
    (ioctlFails : Bool) (errnoV : Int) :
    ((if en = 0 then false else true) = st.mEnabled →
      GyroSensor_setEnable st en ioctlFails errnoV = (st, 0, false)) ∧
    (ioctlFails = true → 0 < errnoV →
      GyroSensor_getEnable (GyroSensor_setEnable st en ioctlFails errnoV).1 =
        GyroSensor_getEnable st) ∧
    (ioctlFails = true → 0 < errnoV →
      (if en = 0 then false else true) ≠ st.mEnabled →
      (GyroSensor_setEnable st en ioctlFails errnoV).2.1 = -errnoV) := by
  obtain ⟨me, mf, pe, dv⟩ := st
  refine ⟨?_, ?_, ?_⟩
  · intro h
    simp [GyroSensor_setEnable, h]
  · intro hio hpos
    have hz : ¬(-errnoV = 0) := by omega
    subst hio
    by_cases he : en = 0 <;> cases me <;>
      simp [GyroSensor_setEnable, GyroSensor_getEnable, he, hz]
  · intro hio hpos h
    have hz : ¬(-errnoV = 0) := by omega
    subst hio
    by_cases he : en = 0 <;> cases me <;> simp_all [GyroSensor_setEnable]

/-- Witness for C10 at concrete inputs. -/
theorem C10_setEnable_noop_and_failure_witness :
    GyroSensor_setEnable ⟨true, false, pending0, true⟩ 1 true 7 =
      (⟨true, false, pending0, true⟩, 0, false) ∧
    GyroSensor_getEnable (GyroSensor_setEnable ⟨true, false, pending0, true⟩ 0 true 7).1 =
      GyroSensor_getEnable ⟨true, false, pending0, true⟩ ∧
    (GyroSensor_setEnable ⟨true, false, pending0, true⟩ 0 true 7).2.1 = -7 :=
  ⟨(C10_setEnable_noop_and_failure ⟨true, false, pending0, true⟩ 1 true 7).1 (by decide),
    (C10_setEnable_noop_and_failure ⟨true, false, pending0, true⟩ 0 true 7).2.1 rfl
      (by decide),
    (C10_setEnable_noop_and_failure ⟨true, false, pending0, true⟩ 0 true 7).2.2 rfl
      (by decide) (by decide)⟩

end SensorHal
